import Mathlib

/-!
Verification of the kingtime client library (`src/lib.rs`) against its
natural-language specification.

The library is a thin typed client for the KingOfTime attendance API: it
builds authenticated GET/POST requests, decodes JSON response bodies through
an untagged success/error envelope, and maps punch codes and timestamps
between Rust values and their wire representations.

This file shallowly embeds the pure content of the library:
  * a `Json` value type standing for `serde_json::Value`;
  * proleptic-Gregorian calendar arithmetic (the relevant fragment of
    `chrono`): days/seconds since the Unix epoch, RFC 3339 formatting and
    parsing, `%Y-%m-%d` date formatting and parsing;
  * the serde encoders/decoders the `derive` macros and manual `impl`s of
    the source generate: `Code`, `ErrorData`, the untagged `Response<R>`
    envelope, `TimeRecord` and its containers, the punch `Request`
    (including `ts_seconds_jst::serialize`), and the empty `PostResponse`;
  * the transport functions `get`, `get_with_query`, `post` and the
    endpoint wrappers `daily_workings::timerecord::{get, post}`.  The HTTP
    exchange itself is a parameter (`transport : HttpRequest → Except String
    Json`); `Option` models panics: a `none` result is a panic reached
    through an `unwrap`/`expect` in the source, `some` a normal return.

The embedding keeps the source's names where Lean allows it.
-/

namespace Kingtime

/-- JSON values, standing for `serde_json::Value`.  Objects are ordered
field lists (serde sees map entries in document order).  Numbers that are
written with a fractional part in the document are kept apart from integers
(as serde_json keeps `f64` apart from `i64`/`u64`): `float m e` stands for
`m * 10 ^ e`; the decoders in this file never read one. -/
inductive Json where
  | null : Json
  | bool (b : Bool) : Json
  | num (n : Int) : Json
  | float (m : Int) (e : Int) : Json
  | str (s : String) : Json
  | arr (xs : List Json) : Json
  | obj (fields : List (String × Json)) : Json

/-! ## Calendar arithmetic (the fragment of chrono the library touches)

Dates are proleptic-Gregorian.  `daysFromCivil`/`civilFromDays` are the
standard era-based conversions between a civil date and its day number
relative to 1970-01-01; timestamps are whole seconds relative to
1970-01-01T00:00:00Z plus a nanosecond part, mirroring chrono's
`DateTime<Utc>` (seconds and subsecond nanoseconds). -/

/-- `chrono::NaiveDate`: a civil calendar date. -/
structure NaiveDate where
  year : Int
  month : Nat
  day : Nat
deriving DecidableEq, Repr

def isLeapYear (y : Int) : Bool :=
  (y % 4 == 0 && y % 100 != 0) || y % 400 == 0

def daysInMonth (y : Int) (m : Nat) : Nat :=
  if m = 2 then (if isLeapYear y then 29 else 28)
  else if m = 4 ∨ m = 6 ∨ m = 9 ∨ m = 11 then 30
  else 31

/-- Day number of a civil date, relative to 1970-01-01 (Hinnant's
`days_from_civil`, as used by chrono's `NaiveDate` day counts). -/
def daysFromCivil (y : Int) (m d : Nat) : Int :=
  let y' : Int := if m ≤ 2 then y - 1 else y
  let era : Int := y'.ediv 400
  let yoe : Nat := (y' - era * 400).toNat
  let mp : Nat := if m > 2 then m - 3 else m + 9
  let doy : Nat := (153 * mp + 2) / 5 + d - 1
  let doe : Nat := yoe * 365 + yoe / 4 - yoe / 100 + doy
  era * 146097 + (doe : Int) - 719468

/-- Civil date of a day number relative to 1970-01-01 (Hinnant's
`civil_from_days`). -/
def civilFromDays (z0 : Int) : NaiveDate :=
  let z : Int := z0 + 719468
  let era : Int := z.ediv 146097
  let doe : Nat := (z - era * 146097).toNat
  let yoe : Nat := (doe - doe / 1460 + doe / 36524 - doe / 146096) / 365
  let y : Int := (yoe : Int) + era * 400
  let doy : Nat := doe - (365 * yoe + yoe / 4 - yoe / 100)
  let mp : Nat := (5 * doy + 2) / 153
  let d : Nat := doy - (153 * mp + 2) / 5 + 1
  let m : Nat := if mp < 10 then mp + 3 else mp - 9
  ⟨if m ≤ 2 then y + 1 else y, m, d⟩

/-- Seconds since the Unix epoch of a civil date and time of day. -/
def toSecs (y : Int) (m d hh mi ss : Nat) : Int :=
  daysFromCivil y m d * 86400 + (hh * 3600 + mi * 60 + ss : Nat)

/-- Smallest timestamp representable by `chrono::NaiveDateTime`
(`NaiveDate::MIN` is January 1, -262143 in astronomical year numbering). -/
def chronoMinSecs : Int := toSecs (-262143) 1 1 0 0 0

/-- Largest whole-second timestamp representable by
`chrono::NaiveDateTime` (`NaiveDate::MAX` is December 31, 262142). -/
def chronoMaxSecs : Int := toSecs 262142 12 31 23 59 59

/-! ## Formatting (chrono `Display` for `NaiveDate`, RFC 3339 writer) -/

def pad2 (n : Nat) : String :=
  if n < 10 then "0" ++ toString n else toString n

def pad4 (n : Nat) : String :=
  if n < 10 then "000" ++ toString n
  else if n < 100 then "00" ++ toString n
  else if n < 1000 then "0" ++ toString n
  else toString n

/-- chrono writes years in `0..=9999` as four zero-padded digits and years
outside that range with an explicit sign (Rust's `{:+05}`). -/
def fmtYear (y : Int) : String :=
  if 0 ≤ y ∧ y ≤ 9999 then pad4 y.toNat
  else if y < 0 then "-" ++ pad4 (-y).toNat
  else "+" ++ pad4 y.toNat

/-- `chrono::NaiveDate`'s `Display` / serde string form: `%Y-%m-%d`. -/
def dateToString (d : NaiveDate) : String :=
  fmtYear d.year ++ "-" ++ pad2 d.month ++ "-" ++ pad2 d.day

/-- The date-and-time part of chrono's RFC 3339 writer applied to a
whole-second UTC timestamp: `YYYY-MM-DDTHH:MM:SS`. -/
def fmtDateTime (secs : Int) : String :=
  let date := civilFromDays (secs.ediv 86400)
  let sod : Nat := (secs.emod 86400).toNat
  dateToString date ++ "T" ++ pad2 (sod / 3600) ++ ":" ++ pad2 (sod / 60 % 60)
    ++ ":" ++ pad2 (sod % 60)

/-- `DateTime<Utc>::to_rfc3339` on a whole-second value: chrono prints the
UTC offset of a `DateTime<Utc>` as `+00:00` (`use_z = false`), never `Z`. -/
def toRfc3339 (secs : Int) : String := fmtDateTime secs ++ "+00:00"

/-! ## Parsing (chrono `FromStr` for `DateTime<Utc>` and `NaiveDate`,
restricted to the shapes the library meets) -/

def isDigitChar (c : Char) : Bool := '0' ≤ c && c ≤ '9'

def digitVal (c : Char) : Nat := c.toNat - 48

def takeDigits : List Char → List Nat × List Char
  | [] => ([], [])
  | c :: cs =>
    if isDigitChar c then
      let r := takeDigits cs
      (digitVal c :: r.1, r.2)
    else ([], c :: cs)

def digitsToNat (ds : List Nat) : Nat :=
  ds.foldl (fun a d => 10 * a + d) 0

/-- A possibly signed year: chrono accepts an optional leading `+`/`-`. -/
def readSignedYear (cs : List Char) : Except String (Int × List Char) :=
  match cs with
  | '+' :: rest =>
    match takeDigits rest with
    | ([], _) => .error "input contains invalid characters"
    | (ds, r) => .ok ((digitsToNat ds : Int), r)
  | '-' :: rest =>
    match takeDigits rest with
    | ([], _) => .error "input contains invalid characters"
    | (ds, r) => .ok (-(digitsToNat ds : Int), r)
  | _ =>
    match takeDigits cs with
    | ([], _) => .error "input contains invalid characters"
    | (ds, r) => .ok ((digitsToNat ds : Int), r)

def read2 (cs : List Char) : Except String (Nat × List Char) :=
  match cs with
  | c1 :: c2 :: rest =>
    if isDigitChar c1 && isDigitChar c2 then
      .ok (10 * digitVal c1 + digitVal c2, rest)
    else .error "input contains invalid characters"
  | _ => .error "premature end of input"

def expectChar (c : Char) (cs : List Char) : Except String (List Char) :=
  match cs with
  | x :: rest => if x = c then .ok rest else .error "input contains invalid characters"
  | [] => .error "premature end of input"

/-- `YYYY-MM-DD`, with chrono's calendar validity checks. -/
def parseDateCore (cs : List Char) : Except String (NaiveDate × List Char) := do
  let (y, cs) ← readSignedYear cs
  let cs ← expectChar '-' cs
  let (m, cs) ← read2 cs
  let cs ← expectChar '-' cs
  let (d, cs) ← read2 cs
  if 1 ≤ m ∧ m ≤ 12 ∧ 1 ≤ d ∧ d ≤ daysInMonth y m then
    .ok (⟨y, m, d⟩, cs)
  else .error "input is out of range"

/-- Subsecond digits scaled to nanoseconds (further digits truncated). -/
def nanosOfDigits (ds : List Nat) : Nat :=
  digitsToNat ((ds ++ List.replicate 9 0).take 9)

def parseFraction (cs : List Char) : Nat × List Char :=
  match cs with
  | '.' :: rest =>
    match takeDigits rest with
    | ([], _) => (0, cs)
    | (ds, r) => (nanosOfDigits ds, r)
  | _ => (0, cs)

/-- A UTC offset: `Z` or `±HH:MM`; the result is the offset in seconds. -/
def parseOffset (cs : List Char) : Except String (Int × List Char) :=
  match cs with
  | 'Z' :: rest => .ok (0, rest)
  | 'z' :: rest => .ok (0, rest)
  | '+' :: rest => do
    let (h, cs) ← read2 rest
    let cs ← expectChar ':' cs
    let (m, cs) ← read2 cs
    if h ≤ 23 ∧ m ≤ 59 then .ok ((Int.ofNat (h * 3600 + m * 60), cs))
    else .error "input is out of range"
  | '-' :: rest => do
    let (h, cs) ← read2 rest
    let cs ← expectChar ':' cs
    let (m, cs) ← read2 cs
    if h ≤ 23 ∧ m ≤ 59 then .ok ((-Int.ofNat (h * 3600 + m * 60), cs))
    else .error "input is out of range"
  | _ => .error "invalid character in timezone offset"

/-- `chrono::DateTime<Utc>` from an RFC 3339 string (the form serde's
`Deserialize for DateTime<Utc>` and `str::parse` accept): the instant is
re-expressed in UTC as `(seconds since epoch, nanoseconds)`. -/
def parseRfc3339 (s : String) : Except String (Int × Nat) := do
  let cs := s.data
  let (date, cs) ← parseDateCore cs
  let cs ← (match cs with
    | 'T' :: r => Except.ok r
    | 't' :: r => Except.ok r
    | ' ' :: r => Except.ok r
    | _ => Except.error "input contains invalid characters")
  let (hh, cs) ← read2 cs
  let cs ← expectChar ':' cs
  let (mi, cs) ← read2 cs
  let cs ← expectChar ':' cs
  let (ss, cs) ← read2 cs
  if hh ≤ 23 ∧ mi ≤ 59 ∧ ss ≤ 59 then
    let (nanos, cs) := parseFraction cs
    let (off, cs) ← parseOffset cs
    match cs with
    | [] => .ok (toSecs date.year date.month date.day hh mi ss - off, nanos)
    | _ => .error "trailing input"
  else .error "input is out of range"

/-- `chrono::NaiveDate` from a `%Y-%m-%d` string (`str::parse`, serde). -/
def parseDateStr (s : String) : Except String NaiveDate := do
  let (d, cs) ← parseDateCore s.data
  match cs with
  | [] => .ok d
  | _ => .error "trailing input"

/-! ## Primitive serde decoders

serde's derived struct decoders read a JSON map: every declared field must
be present exactly once (a repeated field is a `duplicate field` error, an
absent one a `missing field` error) and fields the struct does not declare
are ignored (no `deny_unknown_fields` anywhere in the source). -/

/-- The single value of a field in a JSON object, serde style. -/
def lookupUnique (k : String) (fields : List (String × Json)) : Except String Json :=
  match fields.filter (fun p => p.1 == k) with
  | [] => .error ("missing field " ++ k)
  | [p] => .ok p.2
  | _ => .error ("duplicate field " ++ k)

def decodeStr (j : Json) : Except String String :=
  match j with
  | .str s => .ok s
  | _ => .error "invalid type: expected a string"

/-- serde `u32`: a non-negative JSON integer below `2^32`. -/
def decodeU32 (j : Json) : Except String Nat :=
  match j with
  | .num n => if 0 ≤ n ∧ n < 4294967296 then .ok n.toNat else .error "invalid value: out of range for u32"
  | _ => .error "invalid type: expected u32"

def decodeListWith {α : Type} (dec : Json → Except String α) (j : Json) :
    Except String (List α) :=
  match j with
  | .arr xs => xs.mapM dec
  | _ => .error "invalid type: expected a sequence"

/-- serde `Deserialize for chrono::NaiveDate`: a `%Y-%m-%d` string. -/
def decodeNaiveDate (j : Json) : Except String NaiveDate :=
  match j with
  | .str s => parseDateStr s
  | _ => .error "invalid type: expected a formatted date string"

/-- serde `Deserialize for chrono::DateTime<Utc>`: an RFC 3339 string,
re-expressed in UTC. -/
def decodeDateTime (j : Json) : Except String (Int × Nat) :=
  match j with
  | .str s => parseRfc3339 s
  | _ => .error "invalid type: expected a formatted date and time string"

/-! ## The error envelope (`src/lib.rs` lines 22-43) -/

/-- `ErrorData` (lines 29-33): one API-reported error. -/
structure ErrorData where
  message : String
  code : Nat
deriving DecidableEq, Repr

/-- Derived `Deserialize for ErrorData`. -/
def decodeErrorData (j : Json) : Except String ErrorData :=
  match j with
  | .obj fs => do
    let mj ← lookupUnique "message" fs
    let m ← decodeStr mj
    let cj ← lookupUnique "code" fs
    let c ← decodeU32 cj
    .ok ⟨m, c⟩
  | _ => .error "invalid type: expected struct ErrorData"

/-- The `Response::Error { errors }` variant's shape: a JSON object with an
`errors` field holding a list of `ErrorData`. -/
def decodeErrors (j : Json) : Except String (List ErrorData) :=
  match j with
  | .obj fs => do
    let ej ← lookupUnique "errors" fs
    decodeListWith decodeErrorData ej
  | _ => .error "invalid type: expected a map"

/-- `Response<R>` (lines 22-27): the untagged success/error union. -/
inductive Response (R : Type) where
  | error (errors : List ErrorData) : Response R
  | ok (r : R) : Response R

/-- Derived `Deserialize` for the `#[serde(untagged)]` enum `Response<R>`:
serde tries the variants in declaration order, `Error { errors }` first and
the success payload `R` only if that attempt fails. -/
def decodeResponse {R : Type} (dec : Json → Except String R) (j : Json) :
    Except String (Response R) :=
  match decodeErrors j with
  | .ok errs => .ok (.error errs)
  | .error _ =>
    match dec j with
    | .ok r => .ok (.ok r)
    | .error _ => .error "data did not match any variant of untagged enum Response"

/-- `Error` (lines 35-41): the library's failure type.  `reqwest` covers
transport and body-decode failures (a serde failure inside `.json()` is
surfaced as a `reqwest::Error`), `api` a well-formed error envelope. -/
inductive Error where
  | reqwest (msg : String) : Error
  | api (errors : List ErrorData) : Error
deriving DecidableEq, Repr

/-! ## Transport (`get`, `get_with_query`, `post`, lines 45-125)

The HTTP exchange is abstracted as `transport : HttpRequest → Except String
Json`: the request the library built goes out, and either a transport-level
failure (network error, non-JSON body) or the parsed JSON body comes back.
A `none` result of an operation is a panic in the source (`unwrap` on
`HeaderValue` construction, `expect` inside timestamp serialization); `some`
is a normal typed return. -/

/-- The request the library hands to reqwest. -/
structure HttpRequest where
  method : String
  url : String
  query : List (String × String)
  headers : List (String × String)
  body : Option Json

/-- `http::HeaderValue` accepts bytes `32..=255` except DEL, plus TAB; on a
UTF-8 `&str` this means every char except C0 controls (other than TAB) and
DEL. -/
def isValidHeaderChar (c : Char) : Bool :=
  c = '\t' || (32 ≤ c.toNat && c.toNat ≠ 127)

/-- Whether `format!("Bearer {}", access_token).parse::<HeaderValue>()`
succeeds; its `.unwrap()` (lines 51-54 etc.) panics otherwise. -/
def isValidAuth (access_token : String) : Bool :=
  ("Bearer " ++ access_token).data.all isValidHeaderChar

/-- The two headers every transport function installs.  The content-type
`HeaderValue` is a constant whose `.unwrap()` never fires; the
authorization value panics (`none`) on tokens with invalid header bytes. -/
def mkHeaders (access_token : String) : Option (List (String × String)) :=
  if isValidAuth access_token then
    some [("content-type", "application/json; charset=utf-8"),
          ("authorization", "Bearer " ++ access_token)]
  else none

/-- Decoding of a response body through the untagged envelope, shared by
the three transport functions (the `match resp` at lines 63-66, 92-95,
121-124): an envelope match is an `Error::Api`, a serde failure is a
`reqwest::Error` out of `.json()`. -/
def handleBody {R : Type} (dec : Json → Except String R) (body : Json) :
    Except Error R :=
  match decodeResponse dec body with
  | .error e => .error (.reqwest e)
  | .ok (.error errs) => .error (.api errs)
  | .ok (.ok d) => .ok d

/-- `handleBody` behind the transport outcome. -/
def handleTransport {R : Type} (dec : Json → Except String R)
    (r : Except String Json) : Except Error R :=
  match r with
  | .error e => .error (.reqwest e)
  | .ok body => handleBody dec body

/-- `get` (lines 45-67). -/
def get {R : Type} (dec : Json → Except String R) (access_token api : String)
    (transport : HttpRequest → Except String Json) : Option (Except Error R) :=
  match mkHeaders access_token with
  | none => none
  | some hs => some (handleTransport dec (transport ⟨"GET", api, [], hs, none⟩))

/-- `get_with_query` (lines 69-96). -/
def get_with_query {R : Type} (dec : Json → Except String R)
    (access_token api : String) (query : List (String × String))
    (transport : HttpRequest → Except String Json) : Option (Except Error R) :=
  match mkHeaders access_token with
  | none => none
  | some hs => some (handleTransport dec (transport ⟨"GET", api, query, hs, none⟩))

/-- `post` (lines 98-125).  `ser` is the payload's `Serialize` impl; it may
itself panic (`none`), which `.json(payload)` propagates. -/
def post {S R : Type} (ser : S → Option Json) (dec : Json → Except String R)
    (access_token api : String) (payload : S)
    (transport : HttpRequest → Except String Json) : Option (Except Error R) :=
  match mkHeaders access_token with
  | none => none
  | some hs =>
    match ser payload with
    | none => none
    | some body =>
      some (handleTransport dec (transport ⟨"POST", api, [], hs, some body⟩))

/-! ## `ts_seconds_jst` (lines 5-20)

The source serializes a punch timestamp by (1) formatting it with
`to_rfc3339_opts(SecondsFormat::Secs, false)` and reparsing the string —
for chrono this format/reparse pair is exact on the whole-second part, so
it is modelled as dropping the subsecond component; (2) computing
`value + FixedOffset::east(9 * 3600)`, chrono's `Add<FixedOffset>`, which
adds the offset to the stored instant (the result stays a `DateTime<Utc>`)
and panics outside the `NaiveDateTime` range (modelled as `none`); (3)
formatting the sum with `to_rfc3339`, which on a `DateTime<Utc>` always
writes the suffix `+00:00`. -/

namespace ts_seconds_jst

/-- `ts_seconds_jst::serialize` on a timestamp `(seconds, nanoseconds)`. -/
def serialize (t : Int × Nat) : Option String :=
  let secs := t.1
  let shifted := secs + 9 * 3600
  if chronoMinSecs ≤ shifted ∧ shifted ≤ chronoMaxSecs then
    some (toRfc3339 shifted)
  else none

end ts_seconds_jst

/-! ## `daily_workings::timerecord` (lines 276-504) -/

namespace daily_workings

namespace timerecord

/-- `Code` (lines 373-379): the four punch codes. -/
inductive Code where
  | In : Code
  | Out : Code
  | BreakStart : Code
  | BreakEnd : Code
deriving DecidableEq, Repr

/-- `impl Serialize for Code` (lines 414-426): the wire form is one of the
literal strings `"1"`, `"2"`, `"3"`, `"4"`. -/
def serializeCode (c : Code) : Json :=
  match c with
  | .In => .str "1"
  | .Out => .str "2"
  | .BreakStart => .str "3"
  | .BreakEnd => .str "4"

/-- `CodeVisitor::visit_str` (lines 390-402): the Rust `match v` compares
the string against the four literals in order and otherwise fails with
`E::custom(format!("unknown code: {}", v))`. -/
def visitStrCode (v : String) : Except String Code :=
  if v = "1" then .ok .In
  else if v = "2" then .ok .Out
  else if v = "3" then .ok .BreakStart
  else if v = "4" then .ok .BreakEnd
  else .error ("unknown code: " ++ v)

/-- `impl Deserialize for Code` (lines 405-412): `deserialize_str` hands a
JSON string to the visitor and fails on every other JSON value with the
visitor's `expecting` message. -/
def decodeCode (j : Json) : Except String Code :=
  match j with
  | .str s => visitStrCode s
  | _ => .error "invalid type: code must be an str"

/-- `Request` (lines 294-301): a punch submission.  `time` is a
`DateTime<Utc>` as `(seconds since epoch, nanoseconds)`. -/
structure Request where
  date : NaiveDate
  time : Int × Nat
  code : Code

/-- Derived `Serialize for Request` (`rename_all = "camelCase"` keeps the
three lower-case field names): `date` as chrono's `%Y-%m-%d` string,
`time` through `ts_seconds_jst::serialize` (whose panic propagates), and
`code` through `Code`'s serializer. -/
def serializeRequest (r : Request) : Option Json :=
  match ts_seconds_jst.serialize r.time with
  | none => none
  | some ts =>
    some (.obj [("date", .str (dateToString r.date)),
                ("time", .str ts),
                ("code", serializeCode r.code)])

/-- `PostResponse` (lines 327-328): an empty struct. -/
structure PostResponse where
deriving DecidableEq, Repr

/-- Derived `Deserialize for PostResponse`: with no declared fields every
JSON object is accepted (all of its fields are unknown, hence ignored);
an empty JSON array is accepted as an empty field sequence; everything
else is an invalid type. -/
def decodePostResponse (j : Json) : Except String PostResponse :=
  match j with
  | .obj _ => .ok ⟨⟩
  | .arr [] => .ok ⟨⟩
  | .arr (_ :: _) => .error "invalid length"
  | _ => .error "invalid type: expected struct PostResponse"

/-- `daily_workings::timerecord::post` (lines 281-292): POST the punch to
the per-key URL and discard the empty success payload (`let PostResponse
{} = crate::post(..).await?; Ok(())`: the `?` propagates the error, a
success maps to unit; a panic propagates). -/
def post (access_token key : String) (req : Request)
    (transport : HttpRequest → Except String Json) :
    Option (Except Error Unit) :=
  (Kingtime.post serializeRequest decodePostResponse access_token
      ("https://api.kingtime.jp/v1.0/daily-workings/timerecord/" ++ key)
      req transport).map (fun r => r.map (fun _ => ()))

/-- `TimeRecord` (lines 366-371): one punch. -/
structure TimeRecord where
  time : Int × Nat
  code : Code
deriving DecidableEq, Repr

/-- `DailyWorking` (lines 358-364). -/
structure DailyWorking where
  date : NaiveDate
  employee_key : String
  time_record : List TimeRecord
deriving DecidableEq, Repr

/-- `DailyWorkings` (lines 351-356). -/
structure DailyWorkings where
  date : NaiveDate
  daily_workings : List DailyWorking
deriving DecidableEq, Repr

/-- `Response` (line 348-349): a newtype over `Vec<DailyWorkings>`. -/
abbrev Response := List DailyWorkings

/-- Derived `Deserialize for TimeRecord` (`rename_all = "camelCase"`). -/
def decodeTimeRecord (j : Json) : Except String TimeRecord :=
  match j with
  | .obj fs => do
    let tj ← lookupUnique "time" fs
    let t ← decodeDateTime tj
    let cj ← lookupUnique "code" fs
    let c ← decodeCode cj
    .ok ⟨t, c⟩
  | _ => .error "invalid type: expected struct TimeRecord"

/-- Derived `Deserialize for DailyWorking` (`rename_all = "camelCase"`:
the wire fields are `date`, `employeeKey`, `timeRecord`). -/
def decodeDailyWorking (j : Json) : Except String DailyWorking :=
  match j with
  | .obj fs => do
    let dj ← lookupUnique "date" fs
    let d ← decodeNaiveDate dj
    let kj ← lookupUnique "employeeKey" fs
    let k ← decodeStr kj
    let tj ← lookupUnique "timeRecord" fs
    let ts ← decodeListWith decodeTimeRecord tj
    .ok ⟨d, k, ts⟩
  | _ => .error "invalid type: expected struct DailyWorking"

/-- Derived `Deserialize for DailyWorkings` (wire fields `date`,
`dailyWorkings`). -/
def decodeDailyWorkings (j : Json) : Except String DailyWorkings :=
  match j with
  | .obj fs => do
    let dj ← lookupUnique "date" fs
    let d ← decodeNaiveDate dj
    let wj ← lookupUnique "dailyWorkings" fs
    let ws ← decodeListWith decodeDailyWorking wj
    .ok ⟨d, ws⟩
  | _ => .error "invalid type: expected struct DailyWorkings"

/-- Derived `Deserialize` for the newtype `Response` (named after the
source's `deserialize_response` test, lines 428-503, which exercises it). -/
def deserialize_response (j : Json) : Except String Response :=
  decodeListWith decodeDailyWorkings j

/-- `daily_workings::timerecord::get` (lines 330-346): a GET against the
fixed time-record URL with `employeeKeys` (the keys comma-joined), `start`
and `end` (both `NaiveDate::to_string()`). -/
def get (access_token : String) (keys : List String)
    (startDate endDate : NaiveDate)
    (transport : HttpRequest → Except String Json) :
    Option (Except Error Response) :=
  get_with_query deserialize_response access_token
    "https://api.kingtime.jp/v1.0/daily-workings/timerecord"
    [("employeeKeys", String.intercalate "," keys),
     ("start", dateToString startDate),
     ("end", dateToString endDate)]
    transport

end timerecord

end daily_workings

/-! ## The example time-record listing payload

The JSON document of the source's `deserialize_response` test (lines
430-500), transcribed value for value: one outer date group for
2016-05-01 holding one daily working with four punches whose `code` fields
are `"1"`, `"2"`, `"3"`, `"4"`.  The `latitude`/`longitude` floats are
`float m e` with value `m * 10 ^ e`. -/

def exampleCurrentDateEmployee : Json :=
  .obj [("divisionCode", .str "1000"),
        ("divisionName", .str "本社"),
        ("gender", .str "male"),
        ("typeCode", .str "1"),
        ("typeName", .str "正社員"),
        ("code", .str "1000"),
        ("lastName", .str "勤怠"),
        ("firstName", .str "太郎"),
        ("lastNamePhonetics", .str "キンタイ"),
        ("firstNamePhonetics", .str "タロウ"),
        ("employeeGroups",
          .arr [.obj [("code", .str "0001"), ("name", .str "人事部")],
                .obj [("code", .str "0002"), ("name", .str "総務部")]])]

def exampleTimeRecordJson : Json :=
  .arr [.obj [("time", .str "2016-05-01T09:00:00+09:00"),
              ("code", .str "1"),
              ("name", .str "出勤"),
              ("divisionCode", .str "1000"),
              ("divisionName", .str "本社"),
              ("latitude", .float 356672237 (-7)),
              ("longitude", .float 1397422207 (-7))],
        .obj [("time", .str "2015-05-01T18:00:00+09:00"),
              ("code", .str "2"),
              ("name", .str "退勤"),
              ("divisionCode", .str "1000"),
              ("divisionName", .str "本社"),
              ("credentialCode", .num 300),
              ("credentialName", .str "KOTSL"),
              ("latitude", .float 356672237 (-7)),
              ("longitude", .float 1397422207 (-7))],
        .obj [("time", .str "2016-05-01T10:00:00+09:00"),
              ("code", .str "3"),
              ("name", .str "休憩開始"),
              ("divisionCode", .str "1000"),
              ("divisionName", .str "本社")],
        .obj [("time", .str "2016-05-01T11:00:00+09:00"),
              ("code", .str "4"),
              ("name", .str "休憩終了"),
              ("divisionCode", .str "1000"),
              ("divisionName", .str "本社")]]

def examplePayload : Json :=
  .arr [.obj [("date", .str "2016-05-01"),
              ("dailyWorkings",
                .arr [.obj [("date", .str "2016-05-01"),
                            ("employeeKey",
                              .str "8b6ee646a9620b286499c3df6918c4888a97dd7bbc6a26a18743f4697a1de4b3"),
                            ("currentDateEmployee", exampleCurrentDateEmployee),
                            ("timeRecord", exampleTimeRecordJson)]])]]

/-- The four punches the example payload decodes to: the `+09:00` instants
re-expressed in UTC seconds, and the codes In, Out, BreakStart, BreakEnd. -/
def exampleRecords : List daily_workings.timerecord.TimeRecord :=
  [⟨(1462060800, 0), .In⟩,
   ⟨(1430470800, 0), .Out⟩,
   ⟨(1462064400, 0), .BreakStart⟩,
   ⟨(1462068000, 0), .BreakEnd⟩]

/-- The full decoded example response. -/
def exampleExpected : daily_workings.timerecord.Response :=
  [⟨⟨2016, 5, 1⟩,
    [⟨⟨2016, 5, 1⟩,
      "8b6ee646a9620b286499c3df6918c4888a97dd7bbc6a26a18743f4697a1de4b3",
      exampleRecords⟩]⟩]

/-! # Theorems -/

/-- Claim C1: serializing the punch `Request` of the source's
`serialize_request` test (date 2016-05-01, time the instant
2016-05-01T09:00:00+09:00 = 2016-05-01T00:00:00Z, code `BreakEnd`) is
claimed to produce a JSON value structurally equal to
`date "2016-05-01", time "2016-05-01T00:00:00Z", code "4"`.  It does not:
the code serializes the `time` field as the string
`"2016-05-01T09:00:00+00:00"` — chrono's `value + FixedOffset::east(9 *
3600)` shifts the instant nine hours forward while the value stays a
`DateTime<Utc>`, and `to_rfc3339` then prints the `+00:00` offset — which
differs from the expected `"2016-05-01T00:00:00Z"` as a JSON string, so
the test's structural equality fails on the `time` field. -/
theorem C1_serialize_request_diverges :
    parseRfc3339 "2016-05-01T09:00:00+09:00" = .ok (1462060800, 0) ∧
    daily_workings.timerecord.serializeRequest ⟨⟨2016, 5, 1⟩, (1462060800, 0), .BreakEnd⟩ =
      some (.obj [("date", .str "2016-05-01"),
                  ("time", .str "2016-05-01T09:00:00+00:00"),
                  ("code", .str "4")]) ∧
    ("2016-05-01T09:00:00+00:00" : String) ≠ "2016-05-01T00:00:00Z" :=
  ⟨rfl, rfl, by decide⟩

/-- Claim C2: the serialized `time` field is claimed to be an ISO-8601
string carrying a fixed `+09:00` offset denoting the same instant as the
input truncated to whole seconds.  The code violates both halves: for the
input instant 2016-05-01T00:00:00Z (epoch second 1462060800) it emits
`"2016-05-01T09:00:00+00:00"`, whose offset suffix is `+00:00`, not
`+09:00`, and which denotes epoch second 1462093200 = 1462060800 + 32400,
an instant nine hours after the input — had the string carried the
claimed `+09:00` suffix it would have denoted the input instant. -/
theorem C2_jst_offset_rewrite_diverges :
    ts_seconds_jst.serialize (1462060800, 0) = some "2016-05-01T09:00:00+00:00" ∧
    parseRfc3339 "2016-05-01T09:00:00+00:00" = .ok (1462093200, 0) ∧
    (1462093200 : Int) ≠ 1462060800 ∧
    "2016-05-01T09:00:00+00:00".takeRight 6 = "+00:00" ∧
    ("+00:00" : String) ≠ "+09:00" :=
  ⟨rfl, rfl, by decide, rfl, by decide⟩

/-- Claim C3: each `Code` variant serializes to its literal digit string
(`In` ↦ "1", `Out` ↦ "2", `BreakStart` ↦ "3", `BreakEnd` ↦ "4") and
deserializing that string gives the variant back, so decode ∘ encode is
the identity on `Code`. -/
theorem C3_code_roundtrip :
    daily_workings.timerecord.serializeCode .In = .str "1" ∧
    daily_workings.timerecord.serializeCode .Out = .str "2" ∧
    daily_workings.timerecord.serializeCode .BreakStart = .str "3" ∧
    daily_workings.timerecord.serializeCode .BreakEnd = .str "4" ∧
    ∀ c : daily_workings.timerecord.Code,
      daily_workings.timerecord.decodeCode (daily_workings.timerecord.serializeCode c) = .ok c :=
  ⟨rfl, rfl, rfl, rfl, fun c => by cases c <;> rfl⟩

/-- Claim C4: decoding a `Code` from any string other than "1", "2", "3",
"4" fails with a decode error naming the offending string, and the decoder
accepts exactly those four strings: every successful decode comes from one
of them. -/
theorem C4_code_rejects_unknown (s : String)
    (h1 : s ≠ "1") (h2 : s ≠ "2") (h3 : s ≠ "3") (h4 : s ≠ "4") :
    daily_workings.timerecord.decodeCode (Json.str s) = .error ("unknown code: " ++ s) ∧
    ∀ (j : Json) (c : daily_workings.timerecord.Code),
      daily_workings.timerecord.decodeCode j = .ok c →
      j = Json.str "1" ∨ j = Json.str "2" ∨ j = Json.str "3" ∨ j = Json.str "4" := by
  constructor
  · simp [daily_workings.timerecord.decodeCode, daily_workings.timerecord.visitStrCode,
      h1, h2, h3, h4]
  · intro j c h
    cases j with
    | str t =>
      simp only [daily_workings.timerecord.decodeCode,
        daily_workings.timerecord.visitStrCode] at h
      split_ifs at h with t1 t2 t3 t4
      · exact Or.inl (by rw [t1])
      · exact Or.inr (Or.inl (by rw [t2]))
      · exact Or.inr (Or.inr (Or.inl (by rw [t3])))
      · exact Or.inr (Or.inr (Or.inr (by rw [t4])))
    | null => exact absurd h (by simp [daily_workings.timerecord.decodeCode])
    | bool b => exact absurd h (by simp [daily_workings.timerecord.decodeCode])
    | num n => exact absurd h (by simp [daily_workings.timerecord.decodeCode])
    | float m e => exact absurd h (by simp [daily_workings.timerecord.decodeCode])
    | arr xs => exact absurd h (by simp [daily_workings.timerecord.decodeCode])
    | obj fs => exact absurd h (by simp [daily_workings.timerecord.decodeCode])

/-- Witness for C4 at the concrete offending string "5". -/
theorem C4_code_rejects_unknown_witness :
    daily_workings.timerecord.decodeCode (Json.str "5") = .error "unknown code: 5" ∧
    ∀ (j : Json) (c : daily_workings.timerecord.Code),
      daily_workings.timerecord.decodeCode j = .ok c →
      j = Json.str "1" ∨ j = Json.str "2" ∨ j = Json.str "3" ∨ j = Json.str "4" :=
  C4_code_rejects_unknown "5" (by decide) (by decide) (by decide) (by decide)

/-- Claim C5: the untagged envelope tries the error shape first and the
success type only if that attempt fails: whenever a body matches
`errors: [...]` the call fails with `Error::Api` carrying that list no
matter what the success decoder would say; when the error shape does not
match, the success decoder's verdict stands; and in particular the body
`errors: [message "bad token", code 401]` decodes to an API error with
exactly that one `ErrorData`, for every expected success type. -/
theorem C5_error_shape_first :
    (∀ (R : Type) (dec : Json → Except String R) (body : Json) (errs : List ErrorData),
      decodeErrors body = .ok errs → handleBody dec body = .error (.api errs)) ∧
    (∀ (R : Type) (dec : Json → Except String R) (body : Json) (msg : String) (r : R),
      decodeErrors body = .error msg → dec body = .ok r → handleBody dec body = .ok r) ∧
    (∀ (R : Type) (dec : Json → Except String R),
      handleBody dec
        (Json.obj [("errors",
          Json.arr [Json.obj [("message", Json.str "bad token"), ("code", Json.num 401)]])]) =
        .error (.api [⟨"bad token", 401⟩])) := by
  refine ⟨?_, ?_, ?_⟩
  · intro R dec body errs h
    unfold handleBody decodeResponse
    rw [h]
  · intro R dec body msg r h1 h2
    unfold handleBody decodeResponse
    rw [h1, h2]
  · intro R dec
    rfl

/-- Claim C6, counterexample: the library's operations do panic for some
access tokens.  An access token containing a newline makes
`format!("Bearer {}", access_token).parse::<HeaderValue>().unwrap()` panic
(a newline is not a valid header byte), so `get` crashes (`none`) instead
of returning a typed error. -/
theorem C6_panic_counterexample :
    get (fun _ => Except.ok ()) "a\nb" "https://api.kingtime.jp/v1.0/daily-workings"
      (fun _ => Except.ok (Json.obj [])) = none := rfl

/-- Claim C6, amended: for every access token whose bearer header value
contains only valid HTTP header characters — and, for the punch POST, a
payload whose timestamp survives the nine-hour shift inside chrono's range
— the operations return a typed result for every transport outcome and
never panic. -/
theorem C6_no_panic_amended (R : Type) (dec : Json → Except String R)
    (access_token api key : String) (query : List (String × String))
    (transport : HttpRequest → Except String Json)
    (req : daily_workings.timerecord.Request)
    (hTok : isValidAuth access_token = true)
    (hTime : chronoMinSecs ≤ req.time.1 + 9 * 3600 ∧ req.time.1 + 9 * 3600 ≤ chronoMaxSecs) :
    (get dec access_token api transport).isSome = true ∧
    (get_with_query dec access_token api query transport).isSome = true ∧
    (daily_workings.timerecord.post access_token key req transport).isSome = true := by
  have hh : mkHeaders access_token =
      some [("content-type", "application/json; charset=utf-8"),
            ("authorization", "Bearer " ++ access_token)] := by
    simp [mkHeaders, hTok]
  have hts : ts_seconds_jst.serialize req.time =
      some (toRfc3339 (req.time.1 + 9 * 3600)) := by
    simp only [ts_seconds_jst.serialize]
    rw [if_pos hTime]
  refine ⟨?_, ?_, ?_⟩
  · simp [get, hh]
  · simp [get_with_query, hh]
  · unfold daily_workings.timerecord.post Kingtime.post
      daily_workings.timerecord.serializeRequest
    rw [hh, hts]
    rfl

/-- Witness for the amended C6 at a concrete token, request and
transport. -/
theorem C6_no_panic_witness :
    (get (fun _ => Except.ok ()) "token" "https://api.kingtime.jp/v1.0/daily-workings"
      (fun _ => Except.ok (Json.obj []))).isSome = true ∧
    (get_with_query (fun _ => Except.ok ()) "token"
      "https://api.kingtime.jp/v1.0/daily-workings/timerecord" []
      (fun _ => Except.ok (Json.obj []))).isSome = true ∧
    (daily_workings.timerecord.post "token" "k" ⟨⟨2016, 5, 1⟩, (1462060800, 0), .In⟩
      (fun _ => Except.ok (Json.obj []))).isSome = true :=
  C6_no_panic_amended Unit (fun _ => Except.ok ()) "token"
    "https://api.kingtime.jp/v1.0/daily-workings" "k" []
    (fun _ => Except.ok (Json.obj [])) ⟨⟨2016, 5, 1⟩, (1462060800, 0), .In⟩
    (by decide) (by decide)

/-- Claim C7: for every key list and calendar dates, the time-record
listing issues a GET against the fixed URL
`https://api.kingtime.jp/v1.0/daily-workings/timerecord` whose query holds
exactly the three parameters `employeeKeys` (the keys joined with ","),
`start` and `end` (the bounds in chrono's plain `%Y-%m-%d` form), and
hands the transport's outcome to the envelope decoder. -/
theorem C7_timerecord_get_query (access_token : String) (keys : List String)
    (startDate endDate : NaiveDate)
    (transport : HttpRequest → Except String Json)
    (hTok : isValidAuth access_token = true) :
    daily_workings.timerecord.get access_token keys startDate endDate transport =
      some (handleTransport daily_workings.timerecord.deserialize_response
        (transport ⟨"GET",
          "https://api.kingtime.jp/v1.0/daily-workings/timerecord",
          [("employeeKeys", String.intercalate "," keys),
           ("start", dateToString startDate),
           ("end", dateToString endDate)],
          [("content-type", "application/json; charset=utf-8"),
           ("authorization", "Bearer " ++ access_token)],
          none⟩)) := by
  simp [daily_workings.timerecord.get, get_with_query, mkHeaders, hTok]

/-- Witness for C7 at a concrete token, two keys and the dates 2016-05-01
and 2016-05-02: the comma-join and the `%Y-%m-%d` formatting are visible
in the issued query. -/
theorem C7_timerecord_get_query_witness :
    daily_workings.timerecord.get "token" ["K1", "K2"] ⟨2016, 5, 1⟩ ⟨2016, 5, 2⟩
      (fun _ => Except.ok (Json.arr [])) =
      some (handleTransport daily_workings.timerecord.deserialize_response
        (Except.ok (Json.arr []))) ∧
    String.intercalate "," ["K1", "K2"] = "K1,K2" ∧
    dateToString ⟨2016, 5, 1⟩ = "2016-05-01" ∧
    dateToString ⟨2016, 5, 2⟩ = "2016-05-02" :=
  ⟨C7_timerecord_get_query "token" ["K1", "K2"] ⟨2016, 5, 1⟩ ⟨2016, 5, 2⟩
    (fun _ => Except.ok (Json.arr [])) (by decide), rfl, rfl, rfl⟩

/-- Claim C8: decoding the example time-record listing payload succeeds
and yields exactly four `TimeRecord` entries whose codes are `In`, `Out`,
`BreakStart`, `BreakEnd` respectively. -/
theorem C8_example_decode :
    daily_workings.timerecord.deserialize_response examplePayload = .ok exampleExpected ∧
    exampleExpected =
      [⟨⟨2016, 5, 1⟩,
        [⟨⟨2016, 5, 1⟩,
          "8b6ee646a9620b286499c3df6918c4888a97dd7bbc6a26a18743f4697a1de4b3",
          exampleRecords⟩]⟩] ∧
    exampleRecords.length = 4 ∧
    exampleRecords.map (fun tr => tr.code) = [.In, .Out, .BreakStart, .BreakEnd] :=
  ⟨rfl, rfl, rfl, rfl⟩

/-- Claim C9: the punch POST treats every success body that is a JSON
object as success, not only the empty object: since `PostResponse` has no
fields, every object field is unknown and ignored, so any object on which
the error-envelope shape fails — arbitrary extra fields, or a malformed
`errors` field such as a string — decodes to `PostResponse` and
`daily_workings::timerecord::post` returns `Ok(())`. -/
theorem C9_post_accepts_objects (fs : List (String × Json))
    (h : ∃ msg, decodeErrors (Json.obj fs) = .error msg) :
    handleBody daily_workings.timerecord.decodePostResponse (Json.obj fs) = .ok ⟨⟩ ∧
    ∀ (access_token key : String) (req : daily_workings.timerecord.Request),
      isValidAuth access_token = true →
      chronoMinSecs ≤ req.time.1 + 9 * 3600 ∧ req.time.1 + 9 * 3600 ≤ chronoMaxSecs →
      daily_workings.timerecord.post access_token key req
        (fun _ => Except.ok (Json.obj fs)) = some (.ok ()) := by
  obtain ⟨msg, hmsg⟩ := h
  have hbody : handleBody daily_workings.timerecord.decodePostResponse (Json.obj fs) =
      .ok ⟨⟩ := by
    unfold handleBody decodeResponse
    rw [hmsg]
    rfl
  refine ⟨hbody, ?_⟩
  intro access_token key req hTok hTime
  have hh : mkHeaders access_token =
      some [("content-type", "application/json; charset=utf-8"),
            ("authorization", "Bearer " ++ access_token)] := by
    simp [mkHeaders, hTok]
  have hts : ts_seconds_jst.serialize req.time =
      some (toRfc3339 (req.time.1 + 9 * 3600)) := by
    simp only [ts_seconds_jst.serialize]
    rw [if_pos hTime]
  unfold daily_workings.timerecord.post Kingtime.post
    daily_workings.timerecord.serializeRequest
  rw [hh, hts]
  simp [handleTransport, hbody, Except.map]

/-- Witness for C9 at the body with the malformed errors field
`errors: "x"`. -/
theorem C9_post_accepts_objects_witness :
    handleBody daily_workings.timerecord.decodePostResponse
      (Json.obj [("errors", Json.str "x")]) = .ok ⟨⟩ ∧
    ∀ (access_token key : String) (req : daily_workings.timerecord.Request),
      isValidAuth access_token = true →
      chronoMinSecs ≤ req.time.1 + 9 * 3600 ∧ req.time.1 + 9 * 3600 ≤ chronoMaxSecs →
      daily_workings.timerecord.post access_token key req
        (fun _ => Except.ok (Json.obj [("errors", Json.str "x")])) = some (.ok ()) :=
  C9_post_accepts_objects [("errors", Json.str "x")]
    ⟨"invalid type: expected a sequence", rfl⟩

/-- Claim C10: a body whose `errors` array is empty matches the error
shape, so the call fails with `Error::Api` carrying zero entries, for
every expected success type — shown both on the envelope decoder and on a
full `get` call. -/
theorem C10_empty_errors_api_error :
    (∀ (R : Type) (dec : Json → Except String R),
      handleBody dec (Json.obj [("errors", Json.arr [])]) = .error (.api [])) ∧
    get (fun _ => Except.ok ()) "token" "https://api.kingtime.jp/v1.0/daily-workings"
      (fun _ => Except.ok (Json.obj [("errors", Json.arr [])])) =
      some (.error (.api [])) :=
  ⟨fun _ _ => rfl, rfl⟩

end Kingtime
